import Mathlib

/-!
Verification of the System Bridge CLI (systembridgecli/main module) against
its natural-language specification.

The development shallowly embeds the data-synchronization bridge
(WebsocketData.get_data_from_websocket and its helpers), the listener
(listen_for_data), and the command layer (data_value, setting, token) as
executable Lean definitions.  External collaborators that are not part of
this repository (the ModulesData record of systembridgemodels, the
WebSocketClient of systembridgeconnector, the Settings accessor of
systembridgeshared) are modelled from the specification's interface
contracts; each such definition carries a doc comment starting with
"Modelled from the spec".
-/

/-- Python-style values flowing through the CLI: pushed module payloads,
settings fields, and nested record fields.  Structured records (nested
key/value data) are modelled as association lists of named fields. -/
inductive Value where
  | vnull : Value
  | vbool : Bool → Value
  | vint : Int → Value
  | vstr : String → Value
  | vlist : List Value → Value
  | vrec : List (String × Value) → Value

/-- Python truthiness, as used by the completion check on line 115 and the
walrus-condition tests in data_value and setting: None and False are falsy,
a number is falsy iff zero, a string, list or record is falsy iff empty. -/
def truthy : Value → Bool
  | Value.vnull => false
  | Value.vbool b => b
  | Value.vint n => n != 0
  | Value.vstr s => !s.isEmpty
  | Value.vlist xs => !xs.isEmpty
  | Value.vrec fs => !fs.isEmpty

/-- First-match field lookup in a record's association list: the model of
reading a named attribute of a structured value. -/
def lookupField : List (String × Value) → String → Option Value
  | [], _ => Option.none
  | (k, v) :: fs, key => if k = key then some v else lookupField fs key

/-- Modelled from the spec: ModulesData (package systembridgemodels, not part
of this repository) is the per-session mapping from module name to module
value, where an entry is unset until the first push event for that name
arrives (spec section 3, ModuleSet).  Attribute assignment is modelled by
prepending and attribute read by first match, so the latest push wins. -/
abbrev ModulesData := List (String × Value)

/-- WebsocketData handle_module (source lines 51..57): the listener callback
stores a pushed module value under its module name
(setattr of the modules-data record). -/
def handle_module (d : ModulesData) (module_name : String) (module : Value) : ModulesData :=
  (module_name, module) :: d

/-- One conjunct of the completion check on source line 115: the truthiness
of the stored entry for one module name; an unset entry reads as the None
default and is falsy. -/
def moduleSet (d : ModulesData) (module : String) : Bool :=
  match lookupField d module with
  | some v => truthy v
  | Option.none => false

/-- The completion check of get_data_from_websocket (source line 115):
all of the requested module names read as truthy entries of the store. -/
def allModulesSet (d : ModulesData) (modules : List String) : Bool :=
  modules.all (fun m => moduleSet d m)

/-- A store built from a list of listener callback invocations, in order. -/
def applyAll (calls : List (String × Value)) : ModulesData :=
  calls.foldl (fun d c => handle_module d c.1 c.2) []

/-- The listener applying one slot's worth of push events, in arrival
order, to the store. -/
def applySlot (d : ModulesData) (evs : List (String × Value)) : ModulesData :=
  evs.foldl (fun acc e => handle_module acc e.1 e.2) d

/-- The store as read by the k-th completion check: slot k of the schedule
holds the push events the listener has applied between completion check
k - 1 and completion check k; slot 0 holds the events that arrive between
the request send and the first completion check. -/
def storeAfter (sched : Nat → List (String × Value)) : Nat → ModulesData
  | 0 => []
  | k + 1 => applySlot (storeAfter sched k) (sched k)

/-- The wait loop of get_data_from_websocket (source lines 114..116):
starting at check index k with the given fuel, poll the completion
condition once per interval; return the index of the first check at which
every requested module reads truthy, and Option.none when the fuel is
exhausted while still polling.  The loop body consists only of the
truthiness check and a sleep: it has no timeout and no error path. -/
def wait_for_data (modules : List String) (sched : Nat → List (String × Value)) :
    Nat → Nat → Option Nat
  | 0, _ => Option.none
  | fuel + 1, k =>
    if allModulesSet (storeAfter sched (k + 1)) modules then some k
    else wait_for_data modules sched fuel (k + 1)

/-- Python exceptions that can cross the embedded code's boundaries. -/
inductive PyExn where
  | connectionError : PyExn
  | connectionClosed : PyExn
  | connectionReset : PyExn
  | cancelledError : PyExn
  | attributeError : String → PyExn
  | otherExn : PyExn
deriving DecidableEq

/-- The observable steps of one bridge session, in the order
get_data_from_websocket performs them (source lines 95..125). -/
inductive BridgeAction where
  | connect : BridgeAction
  | setupListener : BridgeAction
  | sendRequest : BridgeAction
  | waitForData : BridgeAction
  | cancelListener : BridgeAction
  | closeWebsocket : BridgeAction
deriving DecidableEq

/-- The environment of one bridge session: which awaited step, if any,
raises a propagating exception.  connectRaises models a failure of
websocket connect, sendRaises a failure of get_data (the request send),
waitRaises an exception delivered while the wait loop is suspended
(for example a CancelledError during the sleep). -/
structure FetchEnv where
  connectRaises : Option PyExn
  sendRaises : Option PyExn
  waitRaises : Option PyExn

/-- A session in which no awaited step raises. -/
def FetchEnv.noFail : FetchEnv := ⟨Option.none, Option.none, Option.none⟩

/-- WebsocketData.get_data_from_websocket (source lines 95..125) as a
step-by-step session: connect; set up the listener (the executor
with-block waits for setup to finish, so the listener task exists before
the next statement runs); send the data request; run the wait loop; on
completion cancel the listener and close the websocket.  The function
returns the trace of steps performed together with the session result;
the source has no try/finally, so an exception raised at any step ends
the trace there and propagates. -/
def get_data_from_websocket (env : FetchEnv) (modules : List String)
    (sched : Nat → List (String × Value)) (fuel : Nat) :
    List BridgeAction × Except PyExn (Option ModulesData) :=
  match env.connectRaises with
  | some e => ([BridgeAction.connect], Except.error e)
  | Option.none =>
    match env.sendRaises with
    | some e => ([BridgeAction.connect, BridgeAction.setupListener, BridgeAction.sendRequest], Except.error e)
    | Option.none =>
      match env.waitRaises with
      | some e =>
        ([BridgeAction.connect, BridgeAction.setupListener, BridgeAction.sendRequest, BridgeAction.waitForData],
          Except.error e)
      | Option.none =>
        match wait_for_data modules sched fuel 0 with
        | some k =>
          ([BridgeAction.connect, BridgeAction.setupListener, BridgeAction.sendRequest, BridgeAction.waitForData,
            BridgeAction.cancelListener, BridgeAction.closeWebsocket],
            Except.ok (some (storeAfter sched (k + 1))))
        | Option.none =>
          ([BridgeAction.connect, BridgeAction.setupListener, BridgeAction.sendRequest, BridgeAction.waitForData],
            Except.ok Option.none)

/-- Index of the first occurrence of an action in a trace (length of the
trace when absent). -/
def idxIn (a : BridgeAction) : List BridgeAction → Nat
  | [] => 0
  | b :: l => if b = a then 0 else idxIn a l + 1

/-- The listener task's lifecycle states. -/
inductive TaskState where
  | running : TaskState
  | cancelled : TaskState
  | finished : TaskState
deriving DecidableEq

/-- Modelled from the spec: asyncio Task.cancel as used on the listener
task.  Cancelling a running task requests cancellation; cancelling an
already-cancelled or finished task is a no-op and never raises, so the
operation is a total function on task states. -/
def TaskState.cancel : TaskState → TaskState
  | TaskState.running => TaskState.cancelled
  | s => s

/-- How the blocking listen call of the websocket client ends, as seen by
listen_for_data: a normal return, a cancellation, one of the three caught
connection signals, or an uncaught exception of another kind. -/
inductive ListenOutcome where
  | finished : ListenOutcome
  | cancelled : ListenOutcome
  | connError : ListenOutcome
  | connClosed : ListenOutcome
  | connReset : ListenOutcome
  | otherRaise : ListenOutcome
deriving DecidableEq

/-- The observable result of one run of listen_for_data: the lines logged,
the listener-task slot afterwards, how many cancel calls were performed,
and the exception propagating out of the coroutine, if any. -/
structure ListenerResult where
  logs : List String
  task : Option TaskState
  cancelCalls : Nat
  raised : Option PyExn

/-- WebsocketData listen_for_data (source lines 59..77): listen until the
websocket client returns or raises; a CancelledError is absorbed silently;
the three connection signals are caught and logged; afterwards, if the
task slot is set the listener cancels its own task and clears the slot.
Any other exception propagates before the teardown code runs. -/
def listen_for_data (o : ListenOutcome) (slot : Option TaskState) : ListenerResult :=
  match o with
  | ListenOutcome.otherRaise => ⟨[], slot, 0, some PyExn.otherExn⟩
  | _ =>
    let logs : List String :=
      match o with
      | ListenOutcome.connError => ["Connection closed to WebSocket: ConnectionErrorException"]
      | ListenOutcome.connClosed => ["Connection closed to WebSocket: ConnectionClosedException"]
      | ListenOutcome.connReset => ["Connection closed to WebSocket: ConnectionResetError"]
      | _ => []
    match slot with
    | some _ => ⟨logs, Option.none, 1, Option.none⟩
    | Option.none => ⟨logs, Option.none, 0, Option.none⟩

/-- The bridge's listener teardown (source lines 118..120): if the task
slot is set, cancel the task once and clear the slot; otherwise do
nothing.  Returns the new slot and the number of cancel calls made. -/
def cancelListenerStep (slot : Option TaskState) : Option TaskState × Nat :=
  match slot with
  | some _ => (Option.none, 1)
  | Option.none => (Option.none, 0)

/-- Transport connection states. -/
inductive ConnState where
  | opened : ConnState
  | closed : ConnState
deriving DecidableEq

/-- Modelled from the spec: WebSocketClient.close (package
systembridgeconnector, not part of this repository).  Spec sections 6 and
8 require close to be idempotent and never fail or raise, so it is a
total transition to the closed state. -/
def websocketClose : ConnState → ConnState := fun _ => ConnState.closed

/-- Python getattr on an embedded value: reading a named field of a record
yields its value; a missing field, or an attribute read on a non-record,
raises AttributeError. -/
def getattrV : Value → String → Except PyExn Value
  | Value.vrec fs, name =>
    match lookupField fs name with
    | some v => Except.ok v
    | Option.none => Except.error (PyExn.attributeError name)
  | _, name => Except.error (PyExn.attributeError name)

/-- The dotted-key walk of data_value (source lines 176..183): for each
path segment in turn, read the attribute (propagating an AttributeError),
test the walrus condition, and stop with a not-found outcome (Option.none)
as soon as a segment reads falsy; otherwise continue from the segment's
value, ending with the final value reached. -/
def walkKeys : Value → List String → Except PyExn (Option Value)
  | v, [] => Except.ok (some v)
  | v, k :: ks =>
    match getattrV v k with
    | Except.error e => Except.error e
    | Except.ok r => if truthy r then walkKeys r ks else Except.ok Option.none

/-- Helper for splitting a key on the dot character, accumulating the
current segment in reverse. -/
def splitDotAux : List Char → List Char → List String
  | [], acc => [String.mk acc.reverse]
  | c :: cs, acc =>
    if c = '.' then String.mk acc.reverse :: splitDotAux cs []
    else splitDotAux cs (c :: acc)

/-- Python str.split on the dot separator, as used by data_value and
setting: "a.b" becomes ["a", "b"], a trailing dot yields an empty final
segment. -/
def splitDot (s : String) : List String := splitDotAux s.data []

/-- The user-visible outcome of one command invocation: a printed value,
the red "Could not find" message for the given key, or an exception
escaping past the command layer. -/
inductive CmdOutcome where
  | printedVal : Value → CmdOutcome
  | couldNotFind : String → CmdOutcome
  | raised : PyExn → CmdOutcome

/-- The data_value command after the module fetch (source lines 159..191):
with a dotted key, split it and walk the segments, printing the final
value reached, or reporting "Could not find" when a segment reads falsy;
an AttributeError raised by the walk escapes.  With an undotted key, one
attribute read with the same walrus test. -/
def data_value (module_data : Value) (key : String) : CmdOutcome :=
  if '.' ∈ key.data then
    match walkKeys module_data (splitDot key) with
    | Except.error e => CmdOutcome.raised e
    | Except.ok (some v) => CmdOutcome.printedVal v
    | Except.ok Option.none => CmdOutcome.couldNotFind key
  else
    match getattrV module_data key with
    | Except.error e => CmdOutcome.raised e
    | Except.ok r => if truthy r then CmdOutcome.printedVal r else CmdOutcome.couldNotFind key

/-- The setting command (source lines 200..216): the literal key "api"
prints the whole api sub-record; a key starting with "api." is replaced by
its second dot-segment and read from the api sub-record; any other key is
read from the settings record directly.  The final value is printed when
truthy and otherwise reported as "Could not find" under the (possibly
replaced) key; an AttributeError from the read escapes. -/
def setting (sData : Value) (key : String) : CmdOutcome :=
  if key = "api" then
    match getattrV sData "api" with
    | Except.ok v => CmdOutcome.printedVal v
    | Except.error e => CmdOutcome.raised e
  else if key.data.take 4 = ['a', 'p', 'i', '.'] then
    match getattrV sData "api" with
    | Except.error e => CmdOutcome.raised e
    | Except.ok apiV =>
      match (splitDot key).get? 1 with
      | Option.none => CmdOutcome.raised PyExn.otherExn
      | some k2 =>
        match getattrV apiV k2 with
        | Except.error e => CmdOutcome.raised e
        | Except.ok r =>
          if truthy r then CmdOutcome.printedVal r else CmdOutcome.couldNotFind k2
  else
    match getattrV sData key with
    | Except.error e => CmdOutcome.raised e
    | Except.ok r => if truthy r then CmdOutcome.printedVal r else CmdOutcome.couldNotFind key

/-- The api sub-section of the settings data: connection port and auth
token (spec section 6, Settings Accessor contract). -/
structure ApiSettings where
  port : Int
  token : String
deriving DecidableEq

/-- The settings data record, exposing the api sub-section. -/
structure SettingsData where
  api : ApiSettings
deriving DecidableEq

/-- Modelled from the spec: the Settings accessor (package
systembridgeshared, not part of this repository) holds the in-memory
settings record and the persisted store, and update writes the given
record through to the store (spec section 6, writeAll). -/
structure SettingsStore where
  mem : SettingsData
  persisted : SettingsData
deriving DecidableEq

/-- Modelled from the spec: a fresh CLI invocation constructs the Settings
accessor anew, loading the persisted store (spec sections 5 and 6). -/
def freshSession (s : SettingsStore) : SettingsStore := ⟨s.persisted, s.persisted⟩

/-- The token command (source lines 128..136): with reset, assign a fresh
identifier (the uuid4 result, supplied here as an argument) to the api
token, persist the whole settings record via update, and print the token;
without reset, print the current token. -/
def tokenCommand (reset : Bool) (fresh : String) (s : SettingsStore) :
    SettingsStore × String :=
  if reset then
    (⟨⟨⟨s.mem.api.port, fresh⟩⟩, ⟨⟨s.mem.api.port, fresh⟩⟩⟩, fresh)
  else (s, s.mem.api.token)

/-- Applying a slot of events that never mentions a module name leaves that
name's entry unchanged. -/
theorem lookup_applySlot_notMem (evs : List (String × Value)) (d : ModulesData) (m : String)
    (hm : m ∉ evs.map Prod.fst) :
    lookupField (applySlot d evs) m = lookupField d m := by
  induction evs generalizing d with
  | nil => rfl
  | cons e t ih =>
    obtain ⟨n, v⟩ := e
    simp only [List.map_cons, List.mem_cons, not_or] at hm
    rw [show applySlot d ((n, v) :: t) = applySlot (handle_module d n v) t from rfl,
      ih _ hm.2]
    simp only [handle_module, lookupField]
    rw [if_neg (fun h => hm.1 h.symm)]

/-- Applying a slot of events that mentions a module name leaves a set
entry for that name in the store: the push is not dropped. -/
theorem isSome_lookup_applySlot (evs : List (String × Value)) (d : ModulesData) (m : String)
    (hm : m ∈ evs.map Prod.fst) :
    (lookupField (applySlot d evs) m).isSome = true := by
  induction evs generalizing d with
  | nil => simp at hm
  | cons e t ih =>
    obtain ⟨n, v⟩ := e
    by_cases ht : m ∈ t.map Prod.fst
    · exact ih _ ht
    · have hm1 : n = m := by
        simp only [List.map_cons, List.mem_cons] at hm
        rcases hm with h | h
        · exact h.symm
        · exact absurd h ht
      rw [show applySlot d ((n, v) :: t) = applySlot (handle_module d n v) t from rfl,
        lookup_applySlot_notMem t _ m ht]
      simp [handle_module, lookupField, hm1]

/-- A module name that no slot of the schedule ever pushes stays unset in
every store the completion check can read. -/
theorem lookup_storeAfter_notPushed (sched : Nat → List (String × Value)) (m : String)
    (h : ∀ k, m ∉ (sched k).map Prod.fst) :
    ∀ n, lookupField (storeAfter sched n) m = Option.none := by
  intro n
  induction n with
  | zero => rfl
  | succ k ih =>
    show lookupField (applySlot (storeAfter sched k) (sched k)) m = Option.none
    rw [lookup_applySlot_notMem _ _ _ (h k), ih]

/-- The completion check fails as soon as one requested module reads
falsy. -/
theorem allModulesSet_false_of_mem (d : ModulesData) (M : List String) (m : String)
    (hm : m ∈ M) (hf : moduleSet d m = false) : allModulesSet d M = false := by
  induction M with
  | nil => exact absurd hm (List.not_mem_nil m)
  | cons a t ih =>
    rw [allModulesSet, List.all_cons]
    rcases List.mem_cons.mp hm with h | h
    · rw [← h, hf, Bool.false_and]
    · rw [show (t.all fun x => moduleSet d x) = allModulesSet d t from rfl, ih h,
        Bool.and_false]

/-- With one requested module never pushed by any slot, the wait loop
polls forever: no fuel bound makes it return. -/
theorem wait_for_data_none (modules : List String) (sched : Nat → List (String × Value))
    (m0 : String) (hm : m0 ∈ modules) (hnever : ∀ k, m0 ∉ (sched k).map Prod.fst) :
    ∀ fuel k, wait_for_data modules sched fuel k = Option.none := by
  intro fuel
  induction fuel with
  | zero => intro k; rfl
  | succ f ih =>
    intro k
    have hms : moduleSet (storeAfter sched (k + 1)) m0 = false := by
      rw [moduleSet, lookup_storeAfter_notPushed sched m0 hnever (k + 1)]
    have hall := allModulesSet_false_of_mem _ modules m0 hm hms
    simp only [wait_for_data, hall, Bool.false_eq_true, if_false]
    exact ih (k + 1)

/-- Claim C1: in every fetch session the background listener is started
before the data request is sent, which is in turn before the first
completion check (the setup step precedes the send step precedes the wait
loop in the session trace); consequently a push event for a requested
module arriving in slot 0, immediately after the request and before the
first completion check, has been applied to the store that the first
check reads, so it is not lost. -/
theorem C1_listener_start_before_send (modules : List String)
    (sched : Nat → List (String × Value)) (fuel : Nat) :
    (idxIn BridgeAction.setupListener
        (get_data_from_websocket FetchEnv.noFail modules sched fuel).1
      < idxIn BridgeAction.sendRequest
          (get_data_from_websocket FetchEnv.noFail modules sched fuel).1
    ∧ idxIn BridgeAction.sendRequest
        (get_data_from_websocket FetchEnv.noFail modules sched fuel).1
      < idxIn BridgeAction.waitForData
          (get_data_from_websocket FetchEnv.noFail modules sched fuel).1)
    ∧ ∀ m v, (m, v) ∈ sched 0 → (lookupField (storeAfter sched 1) m).isSome = true := by
  constructor
  · cases hw : wait_for_data modules sched fuel 0 <;>
      simp [get_data_from_websocket, FetchEnv.noFail, hw, idxIn]
  · intro m v hm
    exact isSome_lookup_applySlot (sched 0) [] m (List.mem_map_of_mem Prod.fst hm)

/-- Witness for C1 at a concrete session: one module pushed in slot 0. -/
theorem C1_witness :
    (idxIn BridgeAction.setupListener
        (get_data_from_websocket FetchEnv.noFail ["cpu"]
          (fun _ => [("cpu", Value.vint 42)]) 2).1
      < idxIn BridgeAction.sendRequest
          (get_data_from_websocket FetchEnv.noFail ["cpu"]
            (fun _ => [("cpu", Value.vint 42)]) 2).1
    ∧ idxIn BridgeAction.sendRequest
        (get_data_from_websocket FetchEnv.noFail ["cpu"]
          (fun _ => [("cpu", Value.vint 42)]) 2).1
      < idxIn BridgeAction.waitForData
          (get_data_from_websocket FetchEnv.noFail ["cpu"]
            (fun _ => [("cpu", Value.vint 42)]) 2).1)
    ∧ (lookupField (storeAfter (fun _ => [("cpu", Value.vint 42)]) 1) "cpu").isSome = true :=
  ⟨(C1_listener_start_before_send ["cpu"] (fun _ => [("cpu", Value.vint 42)]) 2).1,
    (C1_listener_start_before_send ["cpu"] (fun _ => [("cpu", Value.vint 42)]) 2).2
      "cpu" (Value.vint 42) (List.mem_singleton.mpr rfl)⟩

/-- Claim C2, amended: the websocket close step runs exactly on the
normal-completion exit of a fetch session.  There is no try/finally in
get_data_from_websocket, so close appears in the session trace if and
only if the session returned collected data; a propagating error from
connect, the request send, or the wait step skips close. -/
theorem C2_close_iff_normal_completion (env : FetchEnv) (modules : List String)
    (sched : Nat → List (String × Value)) (fuel : Nat) :
    BridgeAction.closeWebsocket ∈ (get_data_from_websocket env modules sched fuel).1
      ↔ ∃ d, (get_data_from_websocket env modules sched fuel).2 = Except.ok (some d) := by
  obtain ⟨c, s, w⟩ := env
  cases c with
  | some e => simp [get_data_from_websocket]
  | none =>
    cases s with
    | some e => simp [get_data_from_websocket]
    | none =>
      cases w with
      | some e => simp [get_data_from_websocket]
      | none =>
        cases hw : wait_for_data modules sched fuel 0 with
        | some k => simp [get_data_from_websocket, hw]
        | none => simp [get_data_from_websocket, hw]

/-- Witness for C2 at a concrete completing session. -/
theorem C2_witness :
    BridgeAction.closeWebsocket ∈
        (get_data_from_websocket FetchEnv.noFail ["cpu"]
          (fun _ => [("cpu", Value.vint 42)]) 3).1
      ↔ ∃ d, (get_data_from_websocket FetchEnv.noFail ["cpu"]
          (fun _ => [("cpu", Value.vint 42)]) 3).2 = Except.ok (some d) :=
  C2_close_iff_normal_completion FetchEnv.noFail ["cpu"] (fun _ => [("cpu", Value.vint 42)]) 3

/-- Counterexample to C2 as stated: a session in which the wait step fails
partway via a propagating CancelledError ends without the close step in
its trace, and likewise for a failing request send: close does not run on
every exit path. -/
theorem C2_cex_error_skips_close :
    (BridgeAction.closeWebsocket ∉
        (get_data_from_websocket ⟨Option.none, Option.none, some PyExn.cancelledError⟩
          ["cpu"] (fun _ => []) 5).1
      ∧ (get_data_from_websocket ⟨Option.none, Option.none, some PyExn.cancelledError⟩
          ["cpu"] (fun _ => []) 5).2 = Except.error PyExn.cancelledError)
    ∧ (BridgeAction.closeWebsocket ∉
        (get_data_from_websocket ⟨Option.none, some PyExn.connectionError, Option.none⟩
          ["cpu"] (fun _ => []) 5).1
      ∧ (get_data_from_websocket ⟨Option.none, some PyExn.connectionError, Option.none⟩
          ["cpu"] (fun _ => []) 5).2 = Except.error PyExn.connectionError) :=
  ⟨⟨by decide, rfl⟩, ⟨by decide, rfl⟩⟩

/-- Claim C4: when only a strict subset of the requested modules is ever
pushed (every pushed name lies in S, while some requested name is outside
S), the fetch never returns: for every fuel bound the session is still in
the poll loop, because completion requires all requested names. -/
theorem C4_strict_subset_never_returns (modules S : List String)
    (sched : Nat → List (String × Value)) (m0 : String)
    (hpush : ∀ k m, m ∈ (sched k).map Prod.fst → m ∈ S)
    (hm0 : m0 ∈ modules) (hm0S : m0 ∉ S) :
    ∀ fuel,
      (get_data_from_websocket FetchEnv.noFail modules sched fuel).2 = Except.ok Option.none := by
  intro fuel
  have hnever : ∀ k, m0 ∉ (sched k).map Prod.fst := fun k hmem => hm0S (hpush k m0 hmem)
  have hw := wait_for_data_none modules sched m0 hm0 hnever fuel 0
  simp [get_data_from_websocket, FetchEnv.noFail, hw]

/-- Witness for C4: two requested modules, only cpu ever pushed. -/
theorem C4_witness :
    (get_data_from_websocket FetchEnv.noFail ["cpu", "memory"]
      (fun _ => [("cpu", Value.vint 1)]) 3).2 = Except.ok Option.none :=
  C4_strict_subset_never_returns ["cpu", "memory"] ["cpu"]
    (fun _ => [("cpu", Value.vint 1)]) "memory"
    (fun _ _ h => h) (by decide) (by decide) 3

/-- Claim C5: a requested module name that the service never publishes
(including a name that is not a recognized module, which per the spec
reads as an unset entry) makes the fetch hang unboundedly in the poll
loop: for every fuel bound the session result is still-polling, with no
completion and no raised error. -/
theorem C5_unpublished_module_hangs_without_error (modules : List String)
    (sched : Nat → List (String × Value)) (m0 : String)
    (hm0 : m0 ∈ modules) (hnever : ∀ k, m0 ∉ (sched k).map Prod.fst) :
    ∀ fuel,
      (get_data_from_websocket FetchEnv.noFail modules sched fuel).2 = Except.ok Option.none := by
  intro fuel
  have hw := wait_for_data_none modules sched m0 hm0 hnever fuel 0
  simp [get_data_from_websocket, FetchEnv.noFail, hw]

/-- Witness for C5: a single requested module with no pushes at all. -/
theorem C5_witness :
    (get_data_from_websocket FetchEnv.noFail ["cpu"] (fun _ => []) 4).2
      = Except.ok Option.none :=
  C5_unpublished_module_hangs_without_error ["cpu"] (fun _ => []) "cpu"
    (by decide) (by intro k h; simp at h) 4

/-- One module's conjunct of the completion check is true exactly when the
store holds a truthy value for that name. -/
theorem moduleSet_true_iff (d : ModulesData) (m : String) :
    moduleSet d m = true ↔ ∃ v, lookupField d m = some v ∧ truthy v = true := by
  rw [moduleSet]
  cases hl : lookupField d m with
  | none => simp
  | some v => simp

/-- Claim C3, amended: the completion check is true iff every requested
name has a stored truthy (non-empty, non-default) value; an apply call
that stored a falsy value does not count, and the check is false if any
requested name lacks a truthy entry, regardless of unrelated modules. -/
theorem C3_isComplete_iff_truthy_value (d : ModulesData) (M : List String) :
    allModulesSet d M = true
      ↔ ∀ m ∈ M, ∃ v, lookupField d m = some v ∧ truthy v = true := by
  rw [allModulesSet, List.all_eq_true]
  exact forall_congr' fun m => forall_congr' fun _ => moduleSet_true_iff d m

/-- Witness for C3 at a concrete store with one truthy entry. -/
theorem C3_witness :
    allModulesSet (applyAll [("cpu", Value.vstr "x")]) ["cpu"] = true
      ↔ ∀ m ∈ (["cpu"] : List String), ∃ v,
          lookupField (applyAll [("cpu", Value.vstr "x")]) m = some v ∧ truthy v = true :=
  C3_isComplete_iff_truthy_value (applyAll [("cpu", Value.vstr "x")]) ["cpu"]

/-- Counterexample to C3 as stated: in the store built from exactly one
apply call per requested name (cpu received one push whose stored value is
None, i.e. falsy), every requested name has had at least one apply call,
yet the completion check is false. -/
theorem C3_cex_falsy_apply :
    (∀ m ∈ (["cpu"] : List String),
        m ∈ ([("cpu", Value.vnull)] : List (String × Value)).map Prod.fst)
    ∧ allModulesSet (applyAll [("cpu", Value.vnull)]) ["cpu"] = false :=
  ⟨by decide, rfl⟩

/-- Claim C6: each of the three connection signals observed by the
listener (connection closed, connection error, connection reset) is
logged with the red connection-closed message and makes the listener
self-terminate (the task slot is cleared), and no exception propagates
out of the listener coroutine; and the waiting step keeps polling: as
long as the completion check is false, one wait-loop step just proceeds
to the next check. -/
theorem C6_conn_signals_logged_not_propagated (slot : Option TaskState) :
    ((listen_for_data ListenOutcome.connClosed slot).logs
        = ["Connection closed to WebSocket: ConnectionClosedException"]
      ∧ (listen_for_data ListenOutcome.connClosed slot).task = Option.none
      ∧ (listen_for_data ListenOutcome.connClosed slot).raised = Option.none)
    ∧ ((listen_for_data ListenOutcome.connError slot).logs
        = ["Connection closed to WebSocket: ConnectionErrorException"]
      ∧ (listen_for_data ListenOutcome.connError slot).task = Option.none
      ∧ (listen_for_data ListenOutcome.connError slot).raised = Option.none)
    ∧ ((listen_for_data ListenOutcome.connReset slot).logs
        = ["Connection closed to WebSocket: ConnectionResetError"]
      ∧ (listen_for_data ListenOutcome.connReset slot).task = Option.none
      ∧ (listen_for_data ListenOutcome.connReset slot).raised = Option.none)
    ∧ (∀ modules sched fuel k, allModulesSet (storeAfter sched (k + 1)) modules = false →
        wait_for_data modules sched (fuel + 1) k = wait_for_data modules sched fuel (k + 1)) := by
  refine ⟨?_, ?_, ?_, ?_⟩
  · cases slot <;> exact ⟨rfl, rfl, rfl⟩
  · cases slot <;> exact ⟨rfl, rfl, rfl⟩
  · cases slot <;> exact ⟨rfl, rfl, rfl⟩
  · intro modules sched fuel k h
    simp [wait_for_data, h]

/-- Witness for C6 with a live listener task and a concrete incomplete
wait-loop state. -/
theorem C6_witness :
    ((listen_for_data ListenOutcome.connClosed (some TaskState.running)).logs
        = ["Connection closed to WebSocket: ConnectionClosedException"]
      ∧ (listen_for_data ListenOutcome.connClosed (some TaskState.running)).task = Option.none
      ∧ (listen_for_data ListenOutcome.connClosed (some TaskState.running)).raised = Option.none)
    ∧ ((listen_for_data ListenOutcome.connError (some TaskState.running)).logs
        = ["Connection closed to WebSocket: ConnectionErrorException"]
      ∧ (listen_for_data ListenOutcome.connError (some TaskState.running)).task = Option.none
      ∧ (listen_for_data ListenOutcome.connError (some TaskState.running)).raised = Option.none)
    ∧ ((listen_for_data ListenOutcome.connReset (some TaskState.running)).logs
        = ["Connection closed to WebSocket: ConnectionResetError"]
      ∧ (listen_for_data ListenOutcome.connReset (some TaskState.running)).task = Option.none
      ∧ (listen_for_data ListenOutcome.connReset (some TaskState.running)).raised = Option.none)
    ∧ wait_for_data ["cpu"] (fun _ => []) 1 0 = wait_for_data ["cpu"] (fun _ => []) 0 1 :=
  ⟨(C6_conn_signals_logged_not_propagated (some TaskState.running)).1,
    (C6_conn_signals_logged_not_propagated (some TaskState.running)).2.1,
    (C6_conn_signals_logged_not_propagated (some TaskState.running)).2.2.1,
    (C6_conn_signals_logged_not_propagated (some TaskState.running)).2.2.2
      ["cpu"] (fun _ => []) 0 0 rfl⟩

/-- Claim C8: cancelling an already-cancelled listener handle is a no-op
that does not raise (cancel is total and idempotent on task states);
closing the connection at the end of a session does not fail (close is a
total transition to closed); and after the listener self-terminates on
any of the connection signals the task slot is cleared, so the bridge's
subsequent guarded teardown performs zero cancel calls: no double-cancel
and nothing thrown on an already-stopped task. -/
theorem C8_teardown_idempotent_no_raise (t : TaskState) (slot : Option TaskState) :
    TaskState.cancel (TaskState.cancel t) = TaskState.cancel t
    ∧ websocketClose (websocketClose ConnState.opened) = ConnState.closed
    ∧ (cancelListenerStep (listen_for_data ListenOutcome.connClosed slot).task).2 = 0
    ∧ (cancelListenerStep (listen_for_data ListenOutcome.connError slot).task).2 = 0
    ∧ (cancelListenerStep (listen_for_data ListenOutcome.connReset slot).task).2 = 0
    ∧ (cancelListenerStep (listen_for_data ListenOutcome.connClosed slot).task).1
        = Option.none := by
  cases t <;> cases slot <;> exact ⟨rfl, rfl, rfl, rfl, rfl, rfl⟩

/-- Witness for C8 at a running task that self-terminated. -/
theorem C8_witness :
    TaskState.cancel (TaskState.cancel TaskState.running) = TaskState.cancel TaskState.running
    ∧ websocketClose (websocketClose ConnState.opened) = ConnState.closed
    ∧ (cancelListenerStep
        (listen_for_data ListenOutcome.connClosed (some TaskState.running)).task).2 = 0
    ∧ (cancelListenerStep
        (listen_for_data ListenOutcome.connError (some TaskState.running)).task).2 = 0
    ∧ (cancelListenerStep
        (listen_for_data ListenOutcome.connReset (some TaskState.running)).task).2 = 0
    ∧ (cancelListenerStep
        (listen_for_data ListenOutcome.connClosed (some TaskState.running)).task).1
        = Option.none :=
  C8_teardown_idempotent_no_raise TaskState.running (some TaskState.running)

/-- Claim C9: two successive token resets with distinct fresh identifiers
(uuid4 generates a new unique identifier each time) print two different
tokens; each reset persists its token to the settings store, and after
each reset the plain token read path of a fresh session retrieves the
token generated by that reset. -/
theorem C9_token_reset_twice_distinct_persisted (s : SettingsStore) (t1 t2 : String)
    (hne : t1 ≠ t2) :
    (tokenCommand true t1 s).2 ≠ (tokenCommand true t2 (tokenCommand true t1 s).1).2
    ∧ (tokenCommand true t1 s).1.persisted.api.token = t1
    ∧ (tokenCommand true t2 (tokenCommand true t1 s).1).1.persisted.api.token = t2
    ∧ (tokenCommand false "" (freshSession (tokenCommand true t1 s).1)).2 = t1
    ∧ (tokenCommand false ""
        (freshSession (tokenCommand true t2 (tokenCommand true t1 s).1).1)).2 = t2 :=
  ⟨fun h => hne h, rfl, rfl, rfl, rfl⟩

/-- Witness for C9 at a concrete store and two distinct tokens. -/
theorem C9_witness :
    (tokenCommand true "token-one" ⟨⟨⟨9170, "old"⟩⟩, ⟨⟨9170, "old"⟩⟩⟩).2
      ≠ (tokenCommand true "token-two"
          (tokenCommand true "token-one" ⟨⟨⟨9170, "old"⟩⟩, ⟨⟨9170, "old"⟩⟩⟩).1).2
    ∧ (tokenCommand true "token-one" ⟨⟨⟨9170, "old"⟩⟩, ⟨⟨9170, "old"⟩⟩⟩).1.persisted.api.token
        = "token-one"
    ∧ (tokenCommand true "token-two"
        (tokenCommand true "token-one" ⟨⟨⟨9170, "old"⟩⟩, ⟨⟨9170, "old"⟩⟩⟩).1).1.persisted.api.token
        = "token-two"
    ∧ (tokenCommand false ""
        (freshSession (tokenCommand true "token-one" ⟨⟨⟨9170, "old"⟩⟩, ⟨⟨9170, "old"⟩⟩⟩).1)).2
        = "token-one"
    ∧ (tokenCommand false ""
        (freshSession (tokenCommand true "token-two"
          (tokenCommand true "token-one" ⟨⟨⟨9170, "old"⟩⟩, ⟨⟨9170, "old"⟩⟩⟩).1).1)).2
        = "token-two" :=
  C9_token_reset_twice_distinct_persisted ⟨⟨⟨9170, "old"⟩⟩, ⟨⟨9170, "old"⟩⟩⟩
    "token-one" "token-two" (by decide)

/-- Claim C7, amended: for a module value whose field a holds a record with
field b equal to 5, data_value with key "a.b" prints 5; but a dotted key
with a segment absent from the module's value makes the attribute read
raise AttributeError past the command layer — the "Could not find"
message is produced only when a segment resolves to a present-but-falsy
value, not when it is absent. -/
theorem C7_dotted_key_resolution (fs gs : List (String × Value))
    (h1 : lookupField fs "a" = some (Value.vrec gs))
    (h2 : lookupField gs "b" = some (Value.vint 5)) :
    data_value (Value.vrec fs) "a.b" = CmdOutcome.printedVal (Value.vint 5)
    ∧ (lookupField gs "c" = Option.none →
        data_value (Value.vrec fs) "a.c" = CmdOutcome.raised (PyExn.attributeError "c")) := by
  have hgs : truthy (Value.vrec gs) = true := by
    cases gs with
    | nil => simp [lookupField] at h2
    | cons p t => rfl
  have ht5 : truthy (Value.vint 5) = true := rfl
  constructor
  · simp [data_value, walkKeys, getattrV, h1, h2, hgs, ht5,
      show splitDot "a.b" = ["a", "b"] from rfl,
      show ('.' ∈ "a.b".data) from by decide]
  · intro hc
    simp [data_value, walkKeys, getattrV, h1, hc, hgs,
      show splitDot "a.c" = ["a", "c"] from rfl,
      show ('.' ∈ "a.c".data) from by decide]

/-- Witness for C7 at the concrete module value of the specification. -/
theorem C7_witness :
    data_value (Value.vrec [("a", Value.vrec [("b", Value.vint 5)])]) "a.b"
        = CmdOutcome.printedVal (Value.vint 5)
    ∧ data_value (Value.vrec [("a", Value.vrec [("b", Value.vint 5)])]) "a.c"
        = CmdOutcome.raised (PyExn.attributeError "c") :=
  ⟨(C7_dotted_key_resolution [("a", Value.vrec [("b", Value.vint 5)])]
      [("b", Value.vint 5)] rfl rfl).1,
    (C7_dotted_key_resolution [("a", Value.vrec [("b", Value.vint 5)])]
      [("b", Value.vint 5)] rfl rfl).2 rfl⟩

/-- Counterexample to C7 as stated: with the module value mapping a to a
record holding only b, the key "a.c" raises AttributeError past the
command layer instead of reporting the not-found failure the claim
asserts. -/
theorem C7_cex_absent_segment_raises :
    data_value (Value.vrec [("a", Value.vrec [("b", Value.vint 5)])]) "a.c"
      = CmdOutcome.raised (PyExn.attributeError "c")
    ∧ CmdOutcome.raised (PyExn.attributeError "c") ≠ CmdOutcome.couldNotFind "a.c" :=
  ⟨rfl, fun h => nomatch h⟩

/-- Claim C10, amended: a key whose value is present but falsy makes both
the data-value single-key lookup and the setting command report the
"Could not find" failure; an absent key instead raises AttributeError
past the command layer, so a present-but-falsy value and an absent key
are reported differently at the CLI interface. -/
theorem C10_falsy_value_reported_not_found (key : String) (v : Value)
    (fs : List (String × Value))
    (hdot : '.' ∉ key.data) (hkey : key ≠ "api")
    (hlook : lookupField fs key = some v) (hfalsy : truthy v = false) :
    data_value (Value.vrec fs) key = CmdOutcome.couldNotFind key
    ∧ setting (Value.vrec fs) key = CmdOutcome.couldNotFind key
    ∧ ∀ key2, '.' ∉ key2.data → key2 ≠ "api" → lookupField fs key2 = Option.none →
        data_value (Value.vrec fs) key2 = CmdOutcome.raised (PyExn.attributeError key2)
        ∧ setting (Value.vrec fs) key2 = CmdOutcome.raised (PyExn.attributeError key2) := by
  have happrefix : ∀ k2 : String, '.' ∉ k2.data →
      ¬(k2.data.take 4 = ['a', 'p', 'i', '.']) := by
    intro k2 hd h
    apply hd
    have hmem : '.' ∈ k2.data.take 4 := by rw [h]; decide
    exact (List.take_sublist 4 k2.data).subset hmem
  refine ⟨?_, ?_, ?_⟩
  · simp [data_value, getattrV, hdot, hlook, hfalsy]
  · simp [setting, getattrV, hkey, happrefix key hdot, hlook, hfalsy]
  · intro key2 hd2 hk2 hl2
    constructor
    · simp [data_value, getattrV, hd2, hl2]
    · simp [setting, getattrV, hk2, happrefix key2 hd2, hl2]

/-- Witness for C10: a settings record with a present zero-valued key and
a missing key. -/
theorem C10_witness :
    data_value (Value.vrec [("api", Value.vrec [("token", Value.vstr "t")]),
        ("zero", Value.vint 0)]) "zero" = CmdOutcome.couldNotFind "zero"
    ∧ setting (Value.vrec [("api", Value.vrec [("token", Value.vstr "t")]),
        ("zero", Value.vint 0)]) "zero" = CmdOutcome.couldNotFind "zero"
    ∧ (data_value (Value.vrec [("api", Value.vrec [("token", Value.vstr "t")]),
          ("zero", Value.vint 0)]) "missing"
        = CmdOutcome.raised (PyExn.attributeError "missing")
      ∧ setting (Value.vrec [("api", Value.vrec [("token", Value.vstr "t")]),
          ("zero", Value.vint 0)]) "missing"
        = CmdOutcome.raised (PyExn.attributeError "missing")) :=
  ⟨(C10_falsy_value_reported_not_found "zero" (Value.vint 0)
      [("api", Value.vrec [("token", Value.vstr "t")]), ("zero", Value.vint 0)]
      (by decide) (by decide) rfl rfl).1,
    (C10_falsy_value_reported_not_found "zero" (Value.vint 0)
      [("api", Value.vrec [("token", Value.vstr "t")]), ("zero", Value.vint 0)]
      (by decide) (by decide) rfl rfl).2.1,
    (C10_falsy_value_reported_not_found "zero" (Value.vint 0)
      [("api", Value.vrec [("token", Value.vstr "t")]), ("zero", Value.vint 0)]
      (by decide) (by decide) rfl rfl).2.2 "missing" (by decide) (by decide) rfl⟩

/-- Counterexample to C10 as stated: at the CLI interface a
present-but-falsy key is distinguishable from an absent key — the falsy
key "zero" yields the Could-not-find message while the absent key
"missing" raises AttributeError, and the two outcomes differ. -/
theorem C10_cex_absent_key_raises :
    setting (Value.vrec [("api", Value.vrec [("token", Value.vstr "t")]),
        ("zero", Value.vint 0)]) "zero" = CmdOutcome.couldNotFind "zero"
    ∧ setting (Value.vrec [("api", Value.vrec [("token", Value.vstr "t")]),
        ("zero", Value.vint 0)]) "missing"
        = CmdOutcome.raised (PyExn.attributeError "missing")
    ∧ CmdOutcome.raised (PyExn.attributeError "missing")
        ≠ CmdOutcome.couldNotFind "missing" :=
  ⟨rfl, rfl, fun h => nomatch h⟩
